import Mathlib

/-!
A shallow embedding of the event-store repository (src/event-store.ts and the
in-memory read-model projector in src/types.ts), with theorems checking the
frozen claims about it.

Conventions of the embedding:
* JavaScript string-keyed objects become association lists `List (String × α)`
  preserving insertion order (JS objects enumerate keys in insertion order).
* A JS numeric slot that can hold `NaN` (from `undefined++`) is `Option Nat`,
  with `none` standing for `NaN`.
* `async` methods are sequentialised: an awaited call completes before the next
  statement.  A call whose promise is dropped (no `await`) is recorded in the
  trace with an `awaited := false` flag.
* External collaborators that are not part of the two source files (the
  persistence strategy, the projection manager, the read model) are oracles:
  their return values are inputs of the model and their invocations are
  recorded as trace effects.
-/

/-- Equality of `Except` results (thrown error or return value) is decidable
when both components are; used to evaluate the model on concrete inputs. -/
instance {ε α : Type} [DecidableEq ε] [DecidableEq α] : DecidableEq (Except ε α)
  | .error x, .error y => decidable_of_iff (x = y) (by simp)
  | .error _, .ok _ => isFalse (by simp)
  | .ok _, .error _ => isFalse (by simp)
  | .ok x, .ok y => decidable_of_iff (x = y) (by simp)

/-- An event as the projector sees it: its number, its name, and the
`metadata.stream` tag set by `mergeAndLoad`.  The payload and the remaining
metadata are never inspected by the code under study. -/
structure IEvent where
  no : Nat
  name : String
  stream : String
deriving DecidableEq, Repr

/-- The `streamPositions` object: stream name to last-processed number.
`none` models the JS `NaN` that `undefined++` produces. -/
abbrev Positions := List (String × Option Nat)

/-- Lookup in a JS-object association list. -/
def lookupKey (m : List (String × α)) (k : String) : Option α :=
  (m.find? (fun kv => kv.1 = k)).map (·.2)

/-- JS `obj[k] = v`: overwrite in place, or append a new key at the end. -/
def setKey : List (String × α) → String → α → List (String × α)
  | [], k, v => [(k, v)]
  | kv :: rest, k, v => if kv.1 = k then (k, v) :: rest else kv :: setKey rest k v

/-- JS `obj[k]++` on a numeric slot: a present number is incremented, a `NaN`
stays `NaN`, a missing key becomes `NaN` (`undefined + 1`). -/
def posIncr : Positions → String → Positions
  | [], k => [(k, none)]
  | kv :: rest, k => if kv.1 = k then (kv.1, kv.2.map (· + 1)) :: rest else kv :: posIncr rest k

/-- JS object spread `{ ...a, ...b }`: keys of `a` in order (values overridden
by `b` where present), then keys of `b` not in `a`, in `b` order. -/
def spreadMerge (a b : List (String × α)) : List (String × α) :=
  a.map (fun kv => (kv.1, (lookupKey b kv.1).getD kv.2))
    ++ b.filter (fun kv => (lookupKey a kv.1).isNone)

/-- The projection status enumeration of `ProjectionStatus`. -/
inductive ProjectionStatus
  | idle | running | stopping | deleting | deletingInclEmittedEvents | resetting
deriving DecidableEq, Repr

/-- A JS value slot for projector state: `undefined`, the empty object `{}`
written by `createProjection`/`reset`/`persist`, or an actual state value. -/
inductive JState (σ : Type)
  | undef
  | emptyObj
  | val (s : σ)
deriving DecidableEq

/-- JS spread `{ ...x }` of a state slot: copies the object, turns `undefined`
into `{}`. -/
def JState.spread : JState σ → JState σ
  | .undef => .emptyObj
  | .emptyObj => .emptyObj
  | .val s => .val s

/-- JS `x || {}` on a state slot (used by `persist`). -/
def JState.orEmpty : JState σ → JState σ
  | .undef => .emptyObj
  | s => s

/-- One row of the `projections` table (the only row this projector touches).
`status` is `Option` because a `persist` over a missing row would leave the
field `undefined`. -/
structure ProjectionRecord (σ : Type) where
  state : JState σ
  positions : Positions
  status : Option ProjectionStatus

/-- Observable calls the projector makes on its collaborators, in program
order.  `appendToE` carries whether the call was awaited before the enclosing
method resolved. -/
inductive Effect
  | rmPersist
  | rmInit
  | rmDelete
  | rmReset
  | recordWrite
  | recordDelete
  | recordCreate
  | idleProjection
  | deleteStreamE (name : String)
  | fetchE (args : List (String × Option Nat))
  | handled (e : IEvent)
  | hasStreamQ (name : String)
  | createStreamE (name : String)
  | appendToE (name : String) (awaited : Bool)
deriving DecidableEq, Repr

/-- Environment of a projector run: the projection's name, the stream names
currently registered in the store (read by `prepareStreamPosition` under
`fromAll`), and an oracle for `eventStore.mergeAndLoad` — it receives the
`(streamName, fromNumber)` pairs built from `streamPositions` (the matcher of
each stream is fixed per projector and absorbed into the oracle). -/
structure RunEnv where
  name : String
  allStreams : List String
  fetch : List (String × Option Nat) → List IEvent

/-- The `query` field built by the `from*` methods. -/
structure Query where
  all : Bool
  streams : List String
deriving DecidableEq, Repr

/-- The in-memory read-model projector together with the slice of the world it
interacts with: its single `projections` row, the store's stream registry, the
read model's initialization flag, the pending answers of the manager's status
polls, and the trace of collaborator calls already made. -/
structure Proj (σ : Type) where
  state : JState σ
  initHandler? : Option σ
  handler? : Option (JState σ → IEvent → JState σ)
  handlers? : Option (List (String × (JState σ → IEvent → JState σ)))
  streamPositions : Positions
  streamCreated : Bool
  isStopped : Bool
  status : ProjectionStatus
  query : Query
  record? : Option (ProjectionRecord σ)
  readModelReady : Bool
  statuses : List ProjectionStatus
  streams : List String
  trace : List Effect

/-- Ways `run` can fail, plus fuel exhaustion of the embedded loop. -/
inductive RunErr
  | noHandler
  | stateNotInitialised
  | projectionNotFound
  | outOfFuel
deriving DecidableEq, Repr

namespace Projector

/-- `persist`: awaits `readModel.persist()` first, then writes state and
positions into the projection row (spread of the old row keeps its status). -/
def persist (p : Proj σ) : Proj σ :=
  let p := { p with trace := p.trace ++ [Effect.rmPersist] }
  { p with
    record? := some { state := p.state.orEmpty,
                      positions := p.streamPositions,
                      status := p.record?.bind (·.status) },
    trace := p.trace ++ [Effect.recordWrite] }

/-- `load`: throws `ProjectionNotFound` when the row is missing, otherwise
spread-merges the persisted positions over the in-memory ones and replaces the
in-memory state by a spread copy of the persisted state. -/
def load (p : Proj σ) : Except RunErr (Proj σ) :=
  match p.record? with
  | none => .error .projectionNotFound
  | some r =>
    .ok { p with streamPositions := spreadMerge p.streamPositions r.positions,
                 state := r.state.spread }

/-- `stop`: persist, set `isStopped`, tell the manager to idle the projection,
record the local status. -/
def stop (p : Proj σ) : Proj σ :=
  let p := persist p
  let p := { p with isStopped := true }
  let p := { p with trace := p.trace ++ [Effect.idleProjection] }
  { p with status := .idle }

/-- `delete(deleteProjection = true)`: removes the projection row, sets
`isStopped`, clears the state and re-runs the init handler when present,
deletes the read model when the flag is set, and clears the positions.  Note
that the flag gates only `readModel.delete()`; no stream is ever deleted. -/
def delete (p : Proj σ) (deleteProjection : Bool) : Proj σ :=
  let p := { p with record? := none, trace := p.trace ++ [Effect.recordDelete] }
  let p := { p with isStopped := true }
  let p := { p with state := match p.initHandler? with
                             | some v => .val v
                             | none => .undef }
  let p := if deleteProjection then { p with trace := p.trace ++ [Effect.rmDelete] } else p
  { p with streamPositions := [] }

/-- `reset`: clears positions, resets the read model, re-runs the init
handler, writes a fresh IDLE row (empty state, the just-cleared positions),
and deletes the stream named after the projection. -/
def reset (env : RunEnv) (p : Proj σ) : Proj σ :=
  let p := { p with streamPositions := [] }
  let p := { p with trace := p.trace ++ [Effect.rmReset] }
  let p := { p with state := match p.initHandler? with
                             | some v => .val v
                             | none => .undef }
  let p := { p with record? := some { state := .emptyObj,
                                      positions := [],
                                      status := some .idle } }
  { p with streams := p.streams.erase env.name,
           trace := p.trace ++ [Effect.deleteStreamE env.name] }

/-- `startAgain`: clear `isStopped`, require the row, mark it RUNNING. -/
def startAgain (p : Proj σ) : Except RunErr (Proj σ) :=
  let p := { p with isStopped := false }
  match p.record? with
  | none => .error .projectionNotFound
  | some r => .ok { p with record? := some { r with status := some .running },
                           status := .running }

/-- `createProjection`: a fresh row with empty state, empty positions, IDLE. -/
def createProjection (p : Proj σ) : Proj σ :=
  { p with record? := some { state := .emptyObj, positions := [], status := some .idle },
           trace := p.trace ++ [Effect.recordCreate] }

/-- `prepareStreamPosition`: seed a zero position for every stream of the
query, then spread the existing positions over the seeds. -/
def prepareStreamPosition (env : RunEnv) (p : Proj σ) : Proj σ :=
  let base : Positions := if p.query.all then env.allStreams.map (fun s => (s, some 0)) else []
  let base : Positions :=
    if p.query.streams.isEmpty then base else p.query.streams.map (fun s => (s, some 0))
  { p with streamPositions := spreadMerge base p.streamPositions }

/-- `fetchRemoteStatus`: next pending poll answer; an exhausted oracle models
the `catch` that turns a manager failure into RUNNING. -/
def fetchRemoteStatus (p : Proj σ) : ProjectionStatus × Proj σ :=
  match p.statuses with
  | [] => (.running, p)
  | s :: rest => (s, { p with statuses := rest })

/-- `handleStreamWithSingleHandler`: for each event, increment the position of
its source stream, replace the state by the handler result (deep copy is the
identity in a value-semantic model), break when stopped. -/
def handleStreamWithSingleHandler : Proj σ → List IEvent → Proj σ
  | p, [] => p
  | p, e :: rest =>
    let p := { p with streamPositions := posIncr p.streamPositions e.stream }
    let h := p.handler?.getD (fun s _ => s)
    let p := { p with state := h p.state e, trace := p.trace ++ [Effect.handled e] }
    if p.isStopped then p else handleStreamWithSingleHandler p rest

/-- `handleStreamWithHandlers`: the position is incremented before the handler
lookup, so events without a registered handler still advance it. -/
def handleStreamWithHandlers : Proj σ → List IEvent → Proj σ
  | p, [] => p
  | p, e :: rest =>
    let p := { p with streamPositions := posIncr p.streamPositions e.stream }
    match lookupKey (p.handlers?.getD []) e.name with
    | none => if p.isStopped then p else handleStreamWithHandlers p rest
    | some h =>
      let p := { p with state := h p.state e, trace := p.trace ++ [Effect.handled e] }
      if p.isStopped then p else handleStreamWithHandlers p rest

/-- The `do … while (keepRunning && !isStopped)` body of `run`, with fuel for
the embedded loop.  One iteration: build the `mergeAndLoad` arguments from the
positions, fetch, fold the events, poll the status and apply the transition,
`prepareStreamPosition` again. -/
def runLoop (env : RunEnv) (keepRunning : Bool) : Nat → Proj σ → Except RunErr (Proj σ)
  | 0, _ => .error .outOfFuel
  | fuel + 1, p =>
    let args := p.streamPositions.map (fun kv => (kv.1, kv.2.map (· + 1)))
    let events := env.fetch args
    let p := { p with trace := p.trace ++ [Effect.fetchE args] }
    let p := if p.handler?.isSome
             then handleStreamWithSingleHandler p events
             else handleStreamWithHandlers p events
    let (st, p) := fetchRemoteStatus p
    let step : Except RunErr (Proj σ) :=
      match st with
      | .stopping => .ok (stop p)
      | .deleting => .ok (delete p true)
      | .deletingInclEmittedEvents => .ok (delete p true)
      | .resetting =>
        let p := reset env p
        if keepRunning then startAgain p else .ok p
      | _ => .ok p
    match step with
    | .error e => .error e
    | .ok p =>
      let p := prepareStreamPosition env p
      if keepRunning && !p.isStopped then runLoop env keepRunning fuel p else .ok p

/-- `run(keepRunning)`: guards, initial status poll with its transition
switch (whose cases fall through: the method continues afterwards), row
creation when absent, read-model init, position preparation, `load`,
`isStopped := false`, then the loop. -/
def run (env : RunEnv) (keepRunning : Bool) (fuel : Nat) (p : Proj σ) :
    Except RunErr (Proj σ) :=
  if p.handler?.isNone && p.handlers?.isNone then .error .noHandler
  else match p.state with
  | .undef => .error .stateNotInitialised
  | _ =>
    let (st, p) := fetchRemoteStatus p
    let step : Except RunErr (Proj σ) :=
      match st with
      | .stopping =>
        match load p with
        | .error e => .error e
        | .ok p => .ok (stop p)
      | .deleting => .ok (delete p true)
      | .deletingInclEmittedEvents => .ok (delete p true)
      | .resetting =>
        let p := reset env p
        if keepRunning then startAgain p else .ok p
      | _ => .ok p
    match step with
    | .error e => .error e
    | .ok p =>
      let p := if p.record?.isNone then createProjection p else p
      let p := if p.readModelReady then p
               else { p with readModelReady := true, trace := p.trace ++ [Effect.rmInit] }
      let p := prepareStreamPosition env p
      match load p with
      | .error e => .error e
      | .ok p => runLoop env keepRunning fuel { p with isStopped := false }

/-- `emit(event)`: when the cached `streamCreated` flag is still false, query
`hasStream` for the projection's own stream and create it when absent; then
fire `appendTo` on the projection's stream WITHOUT awaiting it (the source
drops the promise). -/
def emit (env : RunEnv) (p : Proj σ) (_e : IEvent) : Proj σ :=
  let p :=
    if p.streamCreated = false then
      let p := { p with trace := p.trace ++ [Effect.hasStreamQ env.name] }
      if p.streams.contains env.name then p
      else { p with streams := p.streams ++ [env.name],
                    trace := p.trace ++ [Effect.createStreamE env.name],
                    streamCreated := true }
    else p
  { p with trace := p.trace ++ [Effect.appendToE env.name false] }

/-- `linkTo(streamName, event)`: always query `hasStream`, create the stream
when absent, then await `appendTo` on it. -/
def linkTo (p : Proj σ) (streamName : String) (_e : IEvent) : Proj σ :=
  let p := { p with trace := p.trace ++ [Effect.hasStreamQ streamName] }
  let p :=
    if p.streams.contains streamName then p
    else { p with streams := p.streams ++ [streamName],
                  trace := p.trace ++ [Effect.createStreamE streamName] }
  { p with trace := p.trace ++ [Effect.appendToE streamName true] }

end Projector

/-- A projector with state, an init handler, no `when` handlers yet, and an
empty world; theorems override the fields they exercise. -/
def baseProj : Proj Nat :=
  { state := .val 0
    initHandler? := some 0
    handler? := none
    handlers? := none
    streamPositions := []
    streamCreated := false
    isStopped := false
    status := .idle
    query := { all := false, streams := [] }
    record? := none
    readModelReady := true
    statuses := []
    streams := []
    trace := [] }

/-- C1: the source advances a stream's position by `++`, not to the event's
`no`: in both handler paths (and for events without a registered handler) an
event with `no = 3` arriving on a stream at position 0 leaves the stored
position at 1, not 3 as the claim requires. -/
theorem C1_position_incremented_not_set_to_event_no :
    (Projector.handleStreamWithSingleHandler
        { baseProj with handler? := some (fun s _ => s),
                        streamPositions := [("s", some 0)] }
        [⟨3, "Inc", "s"⟩]).streamPositions = [("s", some 1)]
    ∧ (Projector.handleStreamWithHandlers
        { baseProj with handlers? := some [("Inc", fun s _ => s)],
                        streamPositions := [("s", some 0)] }
        [⟨3, "Inc", "s"⟩]).streamPositions = [("s", some 1)]
    ∧ (Projector.handleStreamWithHandlers
        { baseProj with handlers? := some [],
                        streamPositions := [("s", some 0)] }
        [⟨3, "Inc", "s"⟩]).streamPositions = [("s", some 1)]
    ∧ (some 1 : Option Nat) ≠ some 3 := by
  refine ⟨rfl, rfl, rfl, by decide⟩

/-- Environment of the run scenarios: a projection named "proj" folding stream
"s"; the store yields one event (no = 1) when asked for stream "s" from
number 1, and nothing afterwards. -/
def env1 : RunEnv :=
  { name := "proj"
    allStreams := []
    fetch := fun args => if args = [("s", some 1)] then [⟨1, "Inc", "s"⟩] else [] }

/-- Projector for the C2 scenario: `whenAny` handler set, folding stream "s",
an existing projection row at position 0, and a manager that answers RUNNING
at every poll. -/
def p2 : Proj Nat :=
  { baseProj with
    handler? := some (fun s _ => s)
    query := { all := false, streams := ["s"] }
    record? := some { state := .emptyObj, positions := [("s", some 0)], status := some .running }
    statuses := [.running, .running] }

/-- C2: a single-pass `run(false)` under a steady RUNNING status returns
normally having advanced the in-memory position to 1, yet the projection row
still holds position 0 and the trace shows neither a `readModel.persist` nor a
row write: `persist` is reached only through `stop()` on a STOPPING status,
so a normal return does not write back state and positions. -/
theorem C2_run_returns_without_persisting :
    ((Projector.run env1 false 1 p2).toOption.map
        (fun p => (p.streamPositions, p.record?.map ProjectionRecord.positions, p.trace)))
      = some ([("s", some 1)], some [("s", some 0)],
              [Effect.fetchE [("s", some 1)], Effect.handled ⟨1, "Inc", "s"⟩]) := by
  rfl

/-- Projector for the C3 scenario: as `p2`, but the first status poll answers
DELETING. -/
def p3 : Proj Nat :=
  { p2 with statuses := [.deleting, .running] }

/-- C3: when the initial poll observes DELETING, `delete` removes the row, but
`run` then re-creates it (`createProjection`), resets `isStopped`, and the
loop fetches and hands an event to the handler after the deletion: the run
does not terminate in the deleted state. -/
theorem C3_deleting_recreates_row_and_keeps_processing :
    ((Projector.run env1 false 1 p3).toOption.map
        (fun p => (p.record?.map ProjectionRecord.positions, p.trace)))
      = some (some [],
              [Effect.recordDelete, Effect.rmDelete, Effect.recordCreate,
               Effect.fetchE [("s", some 1)], Effect.handled ⟨1, "Inc", "s"⟩]) := by
  rfl

/-- C4: `delete(true)` — the argument used for the
DELETING_INCL_EMITTED_EVENTS status — removes the row, sets `isStopped`,
re-runs the init handler, deletes the read model and clears the positions,
but its trace contains no `deleteStream` call: the boolean gates only
`readModel.delete()`, and the stream named after the projection survives. -/
theorem C4_delete_true_never_deletes_emitted_stream :
    (Projector.delete
        { baseProj with record? := some { state := .emptyObj,
                                          positions := [("s", some 2)],
                                          status := some .running },
                        streamPositions := [("s", some 2)],
                        streams := ["proj"] } true)
      = { baseProj with record? := none,
                        isStopped := true,
                        state := .val 0,
                        streamPositions := [],
                        streams := ["proj"],
                        trace := [Effect.recordDelete, Effect.rmDelete] } := by
  rfl

/-- C9: on a fresh projector, `emit` checks `hasStream`, creates the
projection's own stream and appends to it — but the `appendTo` is fired with
its promise dropped (`awaited = false`), so `emit` resolves while the append
may still be pending; `linkTo` performs the same sequence on the named stream
with the append awaited. -/
theorem C9_emit_append_not_awaited :
    (Projector.emit env1 baseProj ⟨1, "E", "s"⟩).trace
      = [Effect.hasStreamQ "proj", Effect.createStreamE "proj",
         Effect.appendToE "proj" false]
    ∧ (Projector.emit env1 baseProj ⟨1, "E", "s"⟩).streams = ["proj"]
    ∧ (Projector.emit env1 baseProj ⟨1, "E", "s"⟩).streamCreated = true
    ∧ (Projector.linkTo baseProj "other" ⟨1, "E", "s"⟩).trace
      = [Effect.hasStreamQ "other", Effect.createStreamE "other",
         Effect.appendToE "other" true] := by
  refine ⟨rfl, rfl, rfl, rfl⟩

/-- C10: once `streamCreated` is true, `emit` skips the `hasStream` check and
the stream creation entirely — its only observable action is the (unawaited)
append to the projection's stream — and `reset` deletes the projection's own
stream while leaving `streamCreated` untouched, so an emit after a reset
appends to the deleted stream without recreating it. -/
theorem C10_emit_caches_stream_creation (env : RunEnv) (p : Proj Nat) (e : IEvent)
    (h : p.streamCreated = true) :
    Projector.emit env p e = { p with trace := p.trace ++ [Effect.appendToE env.name false] }
    ∧ (Projector.reset env p).streamCreated = true
    ∧ (Projector.reset env p).streams = p.streams.erase env.name := by
  refine ⟨?_, ?_, ?_⟩
  · simp [Projector.emit, h]
  · simpa [Projector.reset] using h
  · rfl

/-- Projector for the C10 witness: its own stream exists and `streamCreated`
is cached. -/
def p10 : Proj Nat :=
  { baseProj with streamCreated := true, streams := ["proj", "other"] }

/-- State of the C10 witness after `reset` has deleted the emitted stream. -/
def q10 : Proj Nat :=
  Projector.reset env1 p10

theorem C10_witness :
    q10.streamCreated = true
    ∧ (Projector.emit env1 q10 ⟨1, "E", "s"⟩
         = { q10 with trace := q10.trace ++ [Effect.appendToE "proj" false] }
       ∧ (Projector.reset env1 q10).streamCreated = true
       ∧ (Projector.reset env1 q10).streams = q10.streams.erase "proj")
    ∧ q10.streams.contains "proj" = false :=
  ⟨by decide, C10_emit_caches_stream_creation env1 q10 ⟨1, "E", "s"⟩ (by decide), by decide⟩

namespace EventStore

/-- The persistence-strategy calls `createStream` can make, in order. -/
inductive StrategyCall
  | addStreamToStreamsTable
  | createSchema
  | removeStreamFromStreamsTable
  | dropSchema
deriving DecidableEq, Repr

/-- Oracle for the two fallible strategy calls of `createStream` (the rollback
calls are modelled as succeeding; only the primary outcomes steer control). -/
structure StreamStrategy (ε : Type) where
  addStreamResult : Except ε Unit
  createSchemaResult : Except ε Unit

/-- `createStream(name)`: `addStreamToStreamsTable` inside a try whose catch
logs and returns (the schema step is not attempted); then `createSchema`
inside a try whose catch rolls the registration back, attempts a schema drop,
and re-throws the schema error. -/
def createStream (s : StreamStrategy ε) : List StrategyCall × Except ε Unit :=
  match s.addStreamResult with
  | .error _ => ([.addStreamToStreamsTable], .ok ())
  | .ok _ =>
    match s.createSchemaResult with
    | .ok _ => ([.addStreamToStreamsTable, .createSchema], .ok ())
    | .error e =>
      ([.addStreamToStreamsTable, .createSchema,
        .removeStreamFromStreamsTable, .dropSchema], .error e)

/-- The middleware action enumeration of `EventAction`. -/
inductive EventAction
  | preAppend
  | appendErrored
  | appended
  | loaded
deriving DecidableEq, Repr

/-- One `{ action, handler }` middleware registration; handlers may substitute
the event, so they are event transformers.  `α` is the event type. -/
structure EventMiddleWare (α : Type) where
  action : EventAction
  handler : α → α

/-- The constructor's per-action buckets (`MiddlewareCollection`). -/
structure MiddlewareCollection (α : Type) where
  preAppendHandlers : List (α → α)
  appendErroredHandlers : List (α → α)
  appendedHandlers : List (α → α)
  loadedHandlers : List (α → α)

/-- The all-empty initial collection. -/
def emptyCollection : MiddlewareCollection α := ⟨[], [], [], []⟩

/-- One step of the constructor's bucketing reduce: push the handler at the
end of its action's bucket. -/
def addMiddleware (c : MiddlewareCollection α) (m : EventMiddleWare α) :
    MiddlewareCollection α :=
  match m.action with
  | .preAppend => { c with preAppendHandlers := c.preAppendHandlers ++ [m.handler] }
  | .appendErrored => { c with appendErroredHandlers := c.appendErroredHandlers ++ [m.handler] }
  | .appended => { c with appendedHandlers := c.appendedHandlers ++ [m.handler] }
  | .loaded => { c with loadedHandlers := c.loadedHandlers ++ [m.handler] }

/-- The constructor's bucketing of the registered middleware list. -/
def collectMiddleware (ms : List (EventMiddleWare α)) : MiddlewareCollection α :=
  ms.foldl addMiddleware emptyCollection

/-- Sequential left fold of a handler chain over one event. -/
def applyChain (hs : List (α → α)) (e : α) : α :=
  hs.foldl (fun e h => h e) e

/-- Observable actions of `appendTo`: the batch handed to
`PersistenceStrategy.appendTo`, and the fire-and-observe chains started per
event afterwards (their fold results are recorded but discarded). -/
inductive AppendEffect (α : Type)
  | persistCall (events : List α)
  | appendedMw (result : α)
  | appendErroredMw (result : α)
deriving DecidableEq, Repr

/-- `appendTo(streamName, events)`: no-op on an empty batch; otherwise map
each event through the PRE_APPEND chain, hand the transformed batch to the
strategy (outcome given by the `persistResult` oracle), then start the
APPENDED chain per event on success or the APPEND_ERRORED chain per event and
re-throw the original error on failure. -/
def appendTo (c : MiddlewareCollection α) (persistResult : Except ε Unit)
    (events : List α) : List (AppendEffect α) × Except ε Unit :=
  match events with
  | [] => ([], .ok ())
  | _ =>
    let tevents := events.map (applyChain c.preAppendHandlers)
    match persistResult with
    | .ok _ =>
      (AppendEffect.persistCall tevents
         :: tevents.map (fun e => AppendEffect.appendedMw (applyChain c.appendedHandlers e)),
       .ok ())
    | .error err =>
      (AppendEffect.persistCall tevents
         :: tevents.map (fun e => AppendEffect.appendErroredMw (applyChain c.appendErroredHandlers e)),
       .error err)

/-- The batch handed to the strategy, i.e. the payload of the `persistCall`
effect heading the trace of a non-empty `appendTo`. -/
def persistedEvents (r : List (AppendEffect α) × Except ε Unit) : Option (List α) :=
  match r.1 with
  | .persistCall es :: _ => some es
  | _ => none

/-- The PRE_APPEND bucket of the constructor's reduce is exactly the
registration-order sublist of PRE_APPEND handlers. -/
theorem collect_preAppend_go (ms : List (EventMiddleWare α)) (c : MiddlewareCollection α) :
    (ms.foldl addMiddleware c).preAppendHandlers
      = c.preAppendHandlers
        ++ (ms.filter (fun m => decide (m.action = EventAction.preAppend))).map
             EventMiddleWare.handler := by
  induction ms generalizing c with
  | nil => simp
  | cons m ms ih =>
    rw [List.foldl_cons, ih]
    cases h : m.action <;> simp [addMiddleware, h, List.filter_cons]

end EventStore

/-- C5: `createStream` is two-phase with asymmetric error handling: a failing
streams-table registration is swallowed (normal return, no schema attempt),
while a failing schema creation triggers a registration rollback and a schema
drop and re-throws the original schema error. -/
theorem C5_createStream_asymmetric_error_handling {ε : Type}
    (s : EventStore.StreamStrategy ε) :
    (∀ e, s.addStreamResult = .error e →
       EventStore.createStream s = ([.addStreamToStreamsTable], .ok ()))
    ∧ (∀ e, s.addStreamResult = .ok () → s.createSchemaResult = .error e →
       EventStore.createStream s
         = ([.addStreamToStreamsTable, .createSchema,
             .removeStreamFromStreamsTable, .dropSchema], .error e)) := by
  constructor
  · intro e h
    simp [EventStore.createStream, h]
  · intro e h h'
    simp [EventStore.createStream, h, h']

theorem C5_witness :
    EventStore.createStream ({ addStreamResult := .error 7, createSchemaResult := .ok () }
        : EventStore.StreamStrategy Nat)
      = ([.addStreamToStreamsTable], .ok ())
    ∧ EventStore.createStream ({ addStreamResult := .ok (), createSchemaResult := .error 9 }
        : EventStore.StreamStrategy Nat)
      = ([.addStreamToStreamsTable, .createSchema,
          .removeStreamFromStreamsTable, .dropSchema], .error 9) :=
  ⟨(C5_createStream_asymmetric_error_handling _).1 7 rfl,
   (C5_createStream_asymmetric_error_handling _).2 9 rfl rfl⟩

/-- C6: when the strategy's append fails on a non-empty batch, `appendTo`
starts the APPEND_ERRORED chain for each (transformed) event of the batch and
re-raises the original error value. -/
theorem C6_append_errored_chain_then_rethrow {α ε : Type}
    (c : EventStore.MiddlewareCollection α) (events : List α) (err : ε)
    (h : events ≠ []) :
    EventStore.appendTo c (.error err) events
      = (EventStore.AppendEffect.persistCall
             (events.map (EventStore.applyChain c.preAppendHandlers))
           :: (events.map (EventStore.applyChain c.preAppendHandlers)).map
                (fun e => EventStore.AppendEffect.appendErroredMw
                            (EventStore.applyChain c.appendErroredHandlers e)),
         .error err) := by
  cases events with
  | nil => exact absurd rfl h
  | cons e es => rfl

/-- Middleware list for the C6/C7 witnesses: two PRE_APPEND transformers (add
one, then double) and one APPEND_ERRORED observer. -/
def mwExample : List (EventStore.EventMiddleWare Nat) :=
  [{ action := .preAppend, handler := (· + 1) },
   { action := .appendErrored, handler := (· * 10) },
   { action := .preAppend, handler := (· * 2) }]

theorem C6_witness :
    EventStore.appendTo (EventStore.collectMiddleware mwExample)
        (.error (3 : Nat)) [5]
      = ([EventStore.AppendEffect.persistCall [12],
          EventStore.AppendEffect.appendErroredMw 120], .error 3) :=
  (C6_append_errored_chain_then_rethrow
      (EventStore.collectMiddleware mwExample) [5] 3 (by decide)).trans (by decide)

/-- C7: for a non-empty batch, each event handed to the strategy is the
sequential left fold, in registration order, of the registered PRE_APPEND
handlers over the caller's event: the constructor's bucketing reduce preserves
registration order and `appendTo` folds that bucket per event. -/
theorem C7_pre_append_registration_order_fold {α ε : Type}
    (ms : List (EventStore.EventMiddleWare α)) (pr : Except ε Unit)
    (events : List α) (h : events ≠ []) :
    EventStore.persistedEvents (EventStore.appendTo (EventStore.collectMiddleware ms) pr events)
      = some (events.map (EventStore.applyChain
          ((ms.filter (fun m => decide (m.action = EventStore.EventAction.preAppend))).map
             EventStore.EventMiddleWare.handler))) := by
  have hc : (EventStore.collectMiddleware ms).preAppendHandlers
      = (ms.filter (fun m => decide (m.action = EventStore.EventAction.preAppend))).map
          EventStore.EventMiddleWare.handler := by
    simpa [EventStore.emptyCollection] using
      EventStore.collect_preAppend_go ms EventStore.emptyCollection
  cases events with
  | nil => exact absurd rfl h
  | cons e es =>
    cases pr <;> simp [EventStore.appendTo, EventStore.persistedEvents, hc]

theorem C7_witness :
    EventStore.persistedEvents
        (EventStore.appendTo (EventStore.collectMiddleware mwExample)
          (.ok () : Except Nat Unit) [5])
      = some [12] :=
  (C7_pre_append_registration_order_fold mwExample (.ok ()) [5] (by decide)).trans (by decide)

/-- The build-phase exceptions of `ProjectorException`. -/
inductive ProjectorError
  | alreadyInitialized
  | fromAlreadyCalled
  | whenAlreadyCalled
deriving DecidableEq, Repr

/-- The slice of the projector the `from*` methods touch: the `query` object
and the `metadataMatchers` map.  `μ` is the (opaque) matcher type. -/
structure BuildState (μ : Type) where
  query : Query
  metadataMatchers : List (String × μ)
deriving DecidableEq

/-- The `IStream` argument of `fromStream`/`fromStreams`. -/
structure IStream (μ : Type) where
  streamName : String
  matcher : μ
deriving DecidableEq

namespace Projector

/-- `fromAll()`: guarded by `query.all || query.streams.length > 0`; the guard
throws before any mutation. -/
def fromAll (b : BuildState μ) : Except ProjectorError (BuildState μ) :=
  if b.query.all || !b.query.streams.isEmpty then .error .fromAlreadyCalled
  else .ok { b with query := { b.query with all := true } }

/-- `fromStream(stream)`: same guard, then pushes the stream name and records
its matcher. -/
def fromStream (b : BuildState μ) (s : IStream μ) : Except ProjectorError (BuildState μ) :=
  if b.query.all || !b.query.streams.isEmpty then .error .fromAlreadyCalled
  else .ok { b with
             query := { b.query with streams := b.query.streams ++ [s.streamName] },
             metadataMatchers := setKey b.metadataMatchers s.streamName s.matcher }

/-- `fromStreams(...streams)`: same guard, then replaces the stream list and
rebuilds the matcher map from scratch.  With an empty argument list the query
stays empty. -/
def fromStreams (b : BuildState μ) (ss : List (IStream μ)) :
    Except ProjectorError (BuildState μ) :=
  if b.query.all || !b.query.streams.isEmpty then .error .fromAlreadyCalled
  else .ok { b with
             query := { b.query with streams := ss.map (·.streamName) },
             metadataMatchers := ss.foldl (fun m s => setKey m s.streamName s.matcher) [] }

end Projector

/-- A build state on which some `from*` call has taken effect: the guard of
the `from*` methods is armed. -/
def fromMarked (b : BuildState μ) : Prop :=
  b.query.all = true ∨ b.query.streams ≠ []

/-- C8 counterexample: `fromStreams` with an empty stream list succeeds but
leaves the query empty, so a subsequent `fromAll` also succeeds (instead of
failing with `FromAlreadyCalled`) and changes the query. -/
theorem C8_counterexample :
    Projector.fromStreams ({ query := { all := false, streams := [] },
                             metadataMatchers := [] } : BuildState Unit) []
      = .ok { query := { all := false, streams := [] }, metadataMatchers := [] }
    ∧ Projector.fromAll ({ query := { all := false, streams := [] },
                           metadataMatchers := [] } : BuildState Unit)
      = .ok { query := { all := true, streams := [] }, metadataMatchers := [] }
    ∧ (Except.ok { query := { all := true, streams := [] }, metadataMatchers := [] }
        : Except ProjectorError (BuildState Unit))
      ≠ .error .fromAlreadyCalled := by
  refine ⟨rfl, rfl, by decide⟩

/-- C8 (amended): once `fromAll`, `fromStream`, or `fromStreams` with at least
one stream has taken effect, the guard is armed: every further `from*` call
fails with `FromAlreadyCalled` without producing a new state (the source
throws before mutating), and each of the three arming calls indeed arms it —
`fromStreams` only when its stream list is non-empty. -/
theorem C8_from_exclusive {μ : Type} (b : BuildState μ) (s : IStream μ)
    (ss : List (IStream μ)) :
    (fromMarked b →
       Projector.fromAll b = .error .fromAlreadyCalled
       ∧ Projector.fromStream b s = .error .fromAlreadyCalled
       ∧ Projector.fromStreams b ss = .error .fromAlreadyCalled)
    ∧ (∀ b', Projector.fromAll b = .ok b' → fromMarked b')
    ∧ (∀ b', Projector.fromStream b s = .ok b' → fromMarked b')
    ∧ (ss ≠ [] → ∀ b', Projector.fromStreams b ss = .ok b' → fromMarked b') := by
  have hguard : fromMarked b → (b.query.all || !b.query.streams.isEmpty) = true := by
    rintro (h | h)
    · simp [h]
    · simp [List.isEmpty_iff, h]
  refine ⟨?_, ?_, ?_, ?_⟩
  · intro hm
    refine ⟨?_, ?_, ?_⟩ <;>
      simp [Projector.fromAll, Projector.fromStream, Projector.fromStreams, hguard hm]
  · intro b' h
    rw [Projector.fromAll] at h
    split at h
    · cases h
    · cases h
      exact Or.inl rfl
  · intro b' h
    rw [Projector.fromStream] at h
    split at h
    · cases h
    · cases h
      exact Or.inr (by simp)
  · intro hss b' h
    rw [Projector.fromStreams] at h
    split at h
    · cases h
    · cases h
      exact Or.inr (by simpa using hss)

theorem C8_witness :
    fromMarked ({ query := { all := true, streams := [] }, metadataMatchers := [] }
        : BuildState Unit)
    ∧ Projector.fromAll ({ query := { all := true, streams := [] }, metadataMatchers := [] }
        : BuildState Unit)
      = .error .fromAlreadyCalled
    ∧ Projector.fromStream ({ query := { all := true, streams := [] }, metadataMatchers := [] }
        : BuildState Unit) { streamName := "x", matcher := () }
      = .error .fromAlreadyCalled
    ∧ Projector.fromStreams ({ query := { all := true, streams := [] }, metadataMatchers := [] }
        : BuildState Unit) []
      = .error .fromAlreadyCalled :=
  have h := (C8_from_exclusive
      ({ query := { all := true, streams := [] }, metadataMatchers := [] } : BuildState Unit)
      { streamName := "x", matcher := () } []).1 (Or.inl rfl)
  ⟨Or.inl rfl, h.1, h.2.1, h.2.2⟩
